import Mathlib

/-!
Shallow embedding of the RAG Studio client (vigyat13/Rag_Pipeline frontend).

Each definition below mirrors one function of the TypeScript source:
  * `Frontend/pages/Chat.tsx`       — chat session store (`handleSend`,
    `handleClearChat`, `toggleDocSelection`, persistence effects);
  * `Frontend/pages/Documents.tsx`  — document list store (`fetchDocuments`,
    `handleDelete`);
  * `Frontend/services/api.ts`      — HTTP wrapper (`unwrap`, request
    interceptor), plus the divergent wrapper variant embedded alongside
    `Chat.tsx` (`src/services/api.ts` blob);
  * `Frontend/context/AuthContext.tsx` — session store (init effect, `login`).

Network calls are modelled by passing the outcome (`Except`) or a responder
function explicitly; `localStorage` is modelled as records of `Option` values
(a `none` field means the key is absent).  `JSON.stringify`-ed storage values
are modelled by the data they serialize.
-/

namespace RagPipeline

/-- `ChatSource` from `Frontend/types.ts`. -/
structure ChatSource where
  id : String
  document_id : String
  filename : String
  snippet : String
deriving DecidableEq, Repr

/-- `token_usage` field of `ChatResponse` from `Frontend/types.ts`. -/
structure TokenUsage where
  prompt_tokens : Nat
  completion_tokens : Nat
  total_tokens : Nat
deriving DecidableEq, Repr

/-- `ChatResponse` from `Frontend/types.ts`. -/
structure ChatResponse where
  answer : String
  sources : List ChatSource
  used_agent_mode : String
  token_usage : TokenUsage
  latency_ms : Nat
  conversation_id : String
  created_at : String
deriving DecidableEq, Repr

/-- Message role, the `user | assistant` union in `Chat.tsx`. -/
inductive Role where
  | user
  | assistant
deriving DecidableEq, Repr

/-- The `metrics` field of a chat `Message` in `Chat.tsx`. -/
structure Metrics where
  tokens : Nat
  latency : Nat
  agent : String
deriving DecidableEq, Repr

/-- The `Message` interface of `Chat.tsx` (lines 8–18). -/
structure Message where
  id : String
  role : Role
  content : String
  sources : Option (List ChatSource) := none
  metrics : Option Metrics := none
deriving DecidableEq, Repr

/-- `Document` from `Frontend/types.ts`. -/
structure Document where
  id : String
  filename : String
  size_bytes : Nat
  content_type : String
  created_at : String
  num_chunks : Option Nat := none
deriving DecidableEq, Repr

/-- The two chat-related `localStorage` keys (`chat_messages`,
`chat_conversation_id`).  A `none` field means the key is absent; the
serialized message list is modelled by the list it serializes. -/
structure ChatStorage where
  chat_messages : Option (List Message)
  chat_conversation_id : Option String
deriving DecidableEq, Repr

/-- The React state of the `Chat` component (`Chat.tsx` lines 22–37):
message history, active conversation id, input box, in-flight flag and the
selected document-id subset. -/
structure ChatState where
  messages : List Message
  conversationId : Option String
  input : String
  isLoading : Bool
  selectedDocIds : List String
deriving DecidableEq, Repr

/-- The user message built in `handleSend` (`Chat.tsx` lines 76–80);
`now` stands for `Date.now().toString()`. -/
def mkUserMessage (now : String) (input : String) : Message :=
  { id := now, role := Role.user, content := input }

/-- The assistant message built from a successful response
(`Chat.tsx` lines 99–109). -/
def mkAiMessage (now : String) (r : ChatResponse) : Message :=
  { id := now ++ "_ai"
    role := Role.assistant
    content := r.answer
    sources := some r.sources
    metrics := some { tokens := r.token_usage.total_tokens
                      latency := r.latency_ms
                      agent := r.used_agent_mode } }

/-- The synthetic assistant message built on failure
(`Chat.tsx` lines 113–117); `errMsg` is `err.message`, and the
`err.message || ...` fallback treats the empty string
as falsy. -/
def mkErrorMessage (now : String) (errMsg : String) : Message :=
  { id := now ++ "_err"
    role := Role.assistant
    content := "Error: " ++ (if errMsg = "" then "Something went wrong." else errMsg) }

/-- JavaScript `String.prototype.trim`, modelled on the character list:
leading and trailing whitespace characters are removed.  (Stated on
`List Char` so that it computes structurally; the library `String.trim`
agrees but does not reduce in the kernel.) -/
def jsTrim (s : String) : String :=
  ⟨((s.data.dropWhile Char.isWhitespace).reverse.dropWhile Char.isWhitespace).reverse⟩

/-- `handleSend` of `Chat.tsx` (lines 72–122).  The awaited outcome of
`api.post` to `/chat/query` is passed in as `result` (`Except.error` carries
the `.message` of the thrown error).  The guard is
`if (!input.trim() || isLoading) return`, the user message is appended first,
then on success the conversation id is updated when the response carries a
truthy one and the assistant message is appended; on failure the synthetic
error message is appended.  `finally` resets `isLoading`. -/
def handleSend (st : ChatState) (now : String)
    (result : Except String ChatResponse) : ChatState :=
  if jsTrim st.input = "" ∨ st.isLoading then st
  else
    let userMessage := mkUserMessage now st.input
    match result with
    | Except.ok r =>
        { st with
          messages := (st.messages ++ [userMessage]) ++ [mkAiMessage now r]
          conversationId :=
            if r.conversation_id = "" then st.conversationId
            else some r.conversation_id
          input := ""
          isLoading := false }
    | Except.error e =>
        { st with
          messages := (st.messages ++ [userMessage]) ++ [mkErrorMessage now e]
          input := ""
          isLoading := false }

/-- `handleClearChat` of `Chat.tsx` (lines 124–131): when the user confirms,
the message list and conversation id are reset and both storage keys are
removed; otherwise nothing happens. -/
def handleClearChat (confirmed : Bool) (st : ChatState) (storage : ChatStorage) :
    ChatState × ChatStorage :=
  if confirmed then
    ({ st with messages := [], conversationId := none },
     { chat_messages := none, chat_conversation_id := none })
  else (st, storage)

/-- The two persistence `useEffect`s of `Chat.tsx` (lines 41–48), which run
after every committed state change: the messages effect unconditionally
writes `chat_messages`; the conversation effect writes
`chat_conversation_id` when the id is truthy and removes the key
otherwise. -/
def persistEffects (st : ChatState) : ChatStorage :=
  { chat_messages := some st.messages
    chat_conversation_id :=
      match st.conversationId with
      | some c => if c = "" then none else some c
      | none => none }

/-- A confirmed-or-not clear followed by the persistence effects React runs
after the state update commits (`handleClearChat` composed with the
`useEffect`s of lines 41–48). -/
def clearChatAndFlush (confirmed : Bool) (st : ChatState) (storage : ChatStorage) :
    ChatState × ChatStorage :=
  let p := handleClearChat confirmed st storage
  if confirmed then (p.1, persistEffects p.1) else p

/-- `toggleDocSelection` of `Chat.tsx` (lines 133–137):
`prev.includes(id) ? prev.filter(d => d !== id) : [...prev, id]`. -/
def toggleDocSelection (id : String) (prev : List String) : List String :=
  if id ∈ prev then prev.filter (fun d => d ≠ id) else prev ++ [id]

/-- The React state of the `Documents` component
(`Documents.tsx` lines 8–11, minus the upload flag which the claims do not
touch): document list, loading flag and visible error. -/
structure DocState where
  documents : List Document
  isLoading : Bool
  error : Option String
deriving DecidableEq, Repr

/-- `fetchDocuments` of `Documents.tsx` (lines 13–23).  The awaited outcome
of `api.get` on `/documents` is passed in as `result`.  When `isBackground`
is true neither the loading flag nor the error is touched; in foreground
mode the loading flag is raised, dropped again in `finally`, and a failure
writes the fixed error string. -/
def fetchDocuments (isBackground : Bool) (result : Except String (List Document))
    (st : DocState) : DocState :=
  match result with
  | Except.ok data =>
      if isBackground then { st with documents := data }
      else { st with documents := data, isLoading := false }
  | Except.error _ =>
      if isBackground then st
      else { st with error := some "Failed to load documents", isLoading := false }

/-- `handleDelete` of `Documents.tsx` (lines 58–67): nothing happens without
confirmation; on a successful `api.delete` the entry with the given id is
filtered out of local state; on failure only an alert is shown and the list
is untouched. -/
def handleDelete (confirmed : Bool) (id : String)
    (result : Except String Unit) (docs : List Document) : List Document :=
  if confirmed then
    match result with
    | Except.ok _ => docs.filter (fun doc => doc.id ≠ id)
    | Except.error _ => docs
  else docs

/-- The `detail` / `message` fields a server error body may carry
(`err.response?.data` in `Frontend/services/api.ts`). -/
structure RespData where
  detail : Option String
  message : Option String
deriving DecidableEq, Repr

/-- The transport error shape (`AxiosError`): an optional structured
response body and the transport-level `message` string. -/
structure AxiosError where
  response : Option RespData
  message : String
deriving DecidableEq, Repr

/-- A successful transport response carrying its decoded `data` payload
(`AxiosResponse`). -/
structure AxiosResponse (T : Type) where
  data : T
deriving DecidableEq, Repr

/-- JavaScript `a || b` on an optional string `a`: an absent or empty
string is falsy and falls through to `b`. -/
def jsOr (a : Option String) (b : String) : String :=
  match a with
  | some s => if s = "" then b else s
  | none => b

/-- The message selection in the catch block of `unwrap` in
`Frontend/services/api.ts` (lines 38–42):
`err.response?.data?.detail || err.response?.data?.message || err.message
|| "Request failed"`. -/
def errMessage (err : AxiosError) : String :=
  jsOr (err.response.bind RespData.detail)
    (jsOr (err.response.bind RespData.message)
      (jsOr (some err.message) "Request failed"))

/-- `unwrap` of `Frontend/services/api.ts` (lines 32–45): returns
`res.data` on success and throws a fresh `Error(msg)` — modelled as
`Except.error` carrying the selected message string — on failure.  All of
`api.get/post/postMultipart/delete` route through it. -/
def unwrap {T : Type} (promise : Except AxiosError (AxiosResponse T)) :
    Except String T :=
  match promise with
  | Except.ok res => Except.ok res.data
  | Except.error e => Except.error (errMessage e)

/-- `unwrap` of the divergent `src/services/api.ts` variant embedded in the
`Chat.tsx` blob (its lines 365–368): `const res = await promise; return
(res.data as T) ?? (res as any)` — no catch block, so a rejected promise
propagates the raw transport error unchanged.  The payload is modelled as
non-null, so the `?? res` branch does not arise. -/
def unwrapChatVariant {T : Type} (promise : Except AxiosError (AxiosResponse T)) :
    Except AxiosError T :=
  match promise with
  | Except.ok res => Except.ok res.data
  | Except.error e => Except.error e

/-- The request interceptor of `Frontend/services/api.ts` (lines 19–29),
restricted to the `Authorization` header it manipulates: when
`localStorage.getItem("access_token")` is truthy the header becomes
`Bearer <token>`, otherwise the headers are left as they are. -/
def attachAuthHeader (token : Option String) (authHeader : Option String) :
    Option String :=
  match token with
  | some t => if t = "" then authHeader else some ("Bearer " ++ t)
  | none => authHeader

/-- The request interceptor of the divergent `src/services/api.ts` variant
embedded in the `Chat.tsx` blob (its lines 349–360); it spreads the headers
instead of mutating them but assigns the same `Authorization` value under
the same truthiness guard. -/
def attachAuthHeaderChatVariant (token : Option String) (authHeader : Option String) :
    Option String :=
  match token with
  | some t => if t = "" then authHeader else some ("Bearer " ++ t)
  | none => authHeader

/-- `User` from `Frontend/context/AuthContext.tsx` (lines 5–10). -/
structure User where
  id : String
  email : String
  full_name : String
  created_at : String
deriving DecidableEq, Repr

/-- The state the `AuthProvider` init effect leaves behind: the `user` and
`loading` React states, the `access_token` storage key, and whether the
`/auth/me` identity endpoint was called at all. -/
structure InitResult where
  user : Option User
  loading : Bool
  access_token : Option String
  calledMe : Bool
deriving DecidableEq, Repr

/-- The init effect of `AuthProvider` (`AuthContext.tsx` lines 28–49),
starting from the initial state `user = null`, `loading = true`.  A falsy
token (absent or empty) short-circuits: loading is dropped and `/auth/me`
is never called.  Otherwise the passed outcome `fetchMe` of
`api.get` on `/auth/me` decides: success stores the user; failure removes the
token and leaves the user null; `finally` drops loading either way. -/
def initAuthEffect (access_token : Option String)
    (fetchMe : Except String User) : InitResult :=
  match access_token with
  | none => { user := none, loading := false, access_token := none, calledMe := false }
  | some t =>
      if t = "" then
        { user := none, loading := false, access_token := some t, calledMe := false }
      else
        match fetchMe with
        | Except.ok me =>
            { user := some me, loading := false, access_token := some t, calledMe := true }
        | Except.error _ =>
            { user := none, loading := false, access_token := none, calledMe := true }

/-- The state `login` leaves behind: the `user` React state, the
`access_token` storage key, and the error re-thrown to the caller (if
any). -/
structure LoginResult where
  user : Option User
  access_token : Option String
  thrown : Option String
deriving DecidableEq, Repr

/-- `login` of `AuthContext.tsx` (lines 51–65): the token is persisted
first, then `/auth/me` is fetched — `fetchMe` is a responder reading the
`access_token` key, applied to the freshly written `some accessToken`, which
captures the persist-before-fetch ordering.  Success stores the user and
keeps the token; failure removes the token, nulls the user and re-throws. -/
def login (accessToken : String)
    (fetchMe : Option String → Except String User) : LoginResult :=
  let stored : Option String := some accessToken
  match fetchMe stored with
  | Except.ok me => { user := some me, access_token := stored, thrown := none }
  | Except.error e => { user := none, access_token := none, thrown := some e }

/-- First truthy (present and non-empty) string in a list of optional
strings. -/
def firstTruthy : List (Option String) → Option String
  | [] => none
  | o :: rest =>
      match o with
      | some s => if s = "" then firstTruthy rest else some s
      | none => firstTruthy rest

/-- Written from the wording of the spec, for comparison with `errMessage`
(which is translated from the code): the normalized error message is the
server-supplied message when present (response body `detail`, else
`message`), else the transport message, else the generic fallback
`Request failed`. -/
def specNormalizedMessage (e : AxiosError) : String :=
  (firstTruthy
      [e.response.bind RespData.detail,
       e.response.bind RespData.message,
       some e.message]).getD "Request failed"

/-! ### Concrete fixtures used by witnesses and counterexamples -/

/-- A sample retrieval source. -/
def sampleSource : ChatSource :=
  { id := "s1", document_id := "d1", filename := "a.pdf", snippet := "refunds take 30 days" }

/-- A sample successful chat response. -/
def sampleResponse : ChatResponse :=
  { answer := "Refunds are issued within 30 days."
    sources := [sampleSource]
    used_agent_mode := "research"
    token_usage := { prompt_tokens := 10, completion_tokens := 20, total_tokens := 30 }
    latency_ms := 1234
    conversation_id := "conv42"
    created_at := "2024-01-01" }

/-- A sample pre-existing chat message. -/
def sampleMessage : Message :=
  { id := "0", role := Role.user, content := "hello" }

/-- A sample chat state with one prior message, no active conversation and a
non-blank input. -/
def sampleChatState : ChatState :=
  { messages := [sampleMessage]
    conversationId := none
    input := "What is the refund policy?"
    isLoading := false
    selectedDocIds := ["d1"] }

/-- A sample chat state with an active conversation, used for the clear
scenario. -/
def sampleConvChatState : ChatState :=
  { messages := [sampleMessage]
    conversationId := some "conv1"
    input := ""
    isLoading := false
    selectedDocIds := ["d1", "d2"] }

/-- The storage mirroring `sampleConvChatState`. -/
def sampleConvStorage : ChatStorage :=
  { chat_messages := some [sampleMessage], chat_conversation_id := some "conv1" }

/-- Two sample documents with distinct ids. -/
def sampleDocs : List Document :=
  [{ id := "d1", filename := "a.pdf", size_bytes := 100
     content_type := "application/pdf", created_at := "2024-01-01", num_chunks := some 3 },
   { id := "d2", filename := "b.txt", size_bytes := 50
     content_type := "text/plain", created_at := "2024-01-02" }]

/-- A sample transport error with no structured response body. -/
def sampleAxiosError : AxiosError :=
  { response := some { detail := none, message := none }, message := "Network Error" }

/-- A sample user. -/
def sampleUser : User :=
  { id := "u1", email := "alice@example.com", full_name := "Alice", created_at := "2024" }

/-- A responder for `/auth/me` that succeeds exactly when the stored token
is `tok` — it reads the token the way the interceptor does, so it observes
the persist-before-fetch order of `login`. -/
def okResponder : Option String → Except String User :=
  fun stored =>
    match stored with
    | some t => if t = "tok" then Except.ok sampleUser else Except.error "unauthorized"
    | none => Except.error "unauthorized"

/-- A responder for `/auth/me` that always fails. -/
def failResponder : Option String → Except String User :=
  fun _ => Except.error "invalid token"

/-! ### Claims -/

/-- Claim C1: for every `send(text)` call with non-empty, non-whitespace
text made while no request is in flight, the message sequence grows by
exactly two entries — first a user message with that text, then an
assistant message — on success and on failure alike; in particular it never
grows by exactly one entry and the pre-existing messages stay as a prefix,
unmodified and unremoved. -/
theorem handleSend_grows_by_two (st : ChatState) (now : String)
    (result : Except String ChatResponse)
    (hin : jsTrim st.input ≠ "") (hfl : st.isLoading = false) :
    ∃ u a, (handleSend st now result).messages = st.messages ++ [u, a]
      ∧ u.role = Role.user ∧ u.content = st.input ∧ a.role = Role.assistant
      ∧ (handleSend st now result).messages.length = st.messages.length + 2 := by
  cases result with
  | ok r =>
      refine ⟨mkUserMessage now st.input, mkAiMessage now r, ?_, rfl, rfl, rfl, ?_⟩ <;>
        simp [handleSend, hin, hfl, mkUserMessage, mkAiMessage]
  | error e =>
      refine ⟨mkUserMessage now st.input, mkErrorMessage now e, ?_, rfl, rfl, rfl, ?_⟩ <;>
        simp [handleSend, hin, hfl, mkUserMessage, mkErrorMessage]

/-- Witness for C1 at a concrete state and a failing request. -/
theorem handleSend_grows_by_two_witness :
    ∃ u a, (handleSend sampleChatState "1" (Except.error "boom")).messages
        = sampleChatState.messages ++ [u, a]
      ∧ u.role = Role.user ∧ u.content = sampleChatState.input
      ∧ a.role = Role.assistant
      ∧ (handleSend sampleChatState "1" (Except.error "boom")).messages.length
        = sampleChatState.messages.length + 2 :=
  handleSend_grows_by_two sampleChatState "1" (Except.error "boom")
    (by decide) (by decide)

/-- Claim C9: a guarded send with no active conversation that succeeds
appends the user message with the sent text and then an assistant message
whose content is the answer of the response, whose metrics are the total
token count, the latency and the agent mode actually used, and whose
sources have the same length as the sources of the response; when the
response carries a (truthy) conversation identifier, it becomes the active
one. -/
theorem handleSend_success_builds_assistant (st : ChatState) (now : String)
    (r : ChatResponse)
    (hin : jsTrim st.input ≠ "") (hfl : st.isLoading = false)
    (_hconv : st.conversationId = none) (hid : r.conversation_id ≠ "") :
    (handleSend st now (Except.ok r)).messages
        = st.messages ++ [mkUserMessage now st.input, mkAiMessage now r]
      ∧ (mkUserMessage now st.input).role = Role.user
      ∧ (mkUserMessage now st.input).content = st.input
      ∧ (mkAiMessage now r).role = Role.assistant
      ∧ (mkAiMessage now r).content = r.answer
      ∧ (mkAiMessage now r).metrics
          = some { tokens := r.token_usage.total_tokens
                   latency := r.latency_ms
                   agent := r.used_agent_mode }
      ∧ ((mkAiMessage now r).sources.map List.length) = some r.sources.length
      ∧ (handleSend st now (Except.ok r)).conversationId = some r.conversation_id := by
  refine ⟨?_, rfl, rfl, rfl, rfl, rfl, rfl, ?_⟩ <;>
    simp [handleSend, hin, hfl, hid, mkUserMessage, mkAiMessage]

/-- Witness for C9 at a concrete state and response. -/
theorem handleSend_success_builds_assistant_witness :
    (handleSend sampleChatState "1" (Except.ok sampleResponse)).messages
        = sampleChatState.messages
            ++ [mkUserMessage "1" sampleChatState.input, mkAiMessage "1" sampleResponse]
      ∧ (mkUserMessage "1" sampleChatState.input).role = Role.user
      ∧ (mkUserMessage "1" sampleChatState.input).content = sampleChatState.input
      ∧ (mkAiMessage "1" sampleResponse).role = Role.assistant
      ∧ (mkAiMessage "1" sampleResponse).content = sampleResponse.answer
      ∧ (mkAiMessage "1" sampleResponse).metrics
          = some { tokens := sampleResponse.token_usage.total_tokens
                   latency := sampleResponse.latency_ms
                   agent := sampleResponse.used_agent_mode }
      ∧ ((mkAiMessage "1" sampleResponse).sources.map List.length)
          = some sampleResponse.sources.length
      ∧ (handleSend sampleChatState "1" (Except.ok sampleResponse)).conversationId
          = some sampleResponse.conversation_id :=
  handleSend_success_builds_assistant sampleChatState "1" sampleResponse
    (by decide) (by decide) (by decide) (by decide)

/-- Counterexample to claim C2: after a confirmed clear, the persistence
effect of `Chat.tsx` lines 41–43 runs on the committed empty message list
and unconditionally re-writes the `chat_messages` key with the serialized
empty sequence, so that durable-storage key is NOT removed — it is present
and holds `[]`.  (The `chat_conversation_id` key is removed.) -/
theorem clearChat_messages_key_not_removed :
    (clearChatAndFlush true sampleConvChatState sampleConvStorage).2.chat_messages
        = some []
    ∧ (clearChatAndFlush true sampleConvChatState sampleConvStorage).2.chat_messages
        ≠ none := by
  exact ⟨rfl, by simp [clearChatAndFlush, handleClearChat, persistEffects]⟩

/-- Claim C2 as amended: after a confirmed `clear()` (followed by the
write-through persistence effects), the message sequence is empty, the
conversation identifier is undefined, the conversation-id storage key is
removed, the messages storage key holds the serialized empty sequence
(re-written by the write-through effect rather than staying removed), and
the document-selection state is unchanged. -/
theorem clearChat_amended (st : ChatState) (sto : ChatStorage) :
    (clearChatAndFlush true st sto).1.messages = []
    ∧ (clearChatAndFlush true st sto).1.conversationId = none
    ∧ (clearChatAndFlush true st sto).2.chat_conversation_id = none
    ∧ (clearChatAndFlush true st sto).2.chat_messages = some []
    ∧ (clearChatAndFlush true st sto).1.selectedDocIds = st.selectedDocIds := by
  simp [clearChatAndFlush, handleClearChat, persistEffects]

/-- Claim C4: a background refresh whose fetch fails leaves the whole
document-store state — list, loading flag and visible error — exactly
unchanged, while a foreground refresh whose fetch fails sets the visible
error and leaves the list as it was. -/
theorem fetchDocuments_failure_frame (st : DocState) (e : String) :
    fetchDocuments true (Except.error e) st = st
    ∧ (fetchDocuments false (Except.error e) st).error
        = some "Failed to load documents"
    ∧ (fetchDocuments false (Except.error e) st).documents = st.documents := by
  exact ⟨rfl, rfl, rfl⟩

/-- Counterexample to claim C10: toggling is not an involution on the
selection list.  For the duplicate-free selection `[d1, d2]`, toggling `d1`
twice yields `[d2, d1]` — the member moves to the end — which differs from
the original selection. -/
theorem toggleDocSelection_not_involutive :
    toggleDocSelection "d1" (toggleDocSelection "d1" ["d1", "d2"]) = ["d2", "d1"]
    ∧ toggleDocSelection "d1" (toggleDocSelection "d1" ["d1", "d2"]) ≠ ["d1", "d2"]
    ∧ (["d1", "d2"] : List String).Nodup := by
  refine ⟨by decide, by decide, by decide⟩

/-- Claim C10 as amended: a single `toggleDocSelection(d)` removes `d` from
the selection if `d` is a member and appends `d` to the end otherwise, and
the other elements keep their membership and relative order (the
`d`-free part of the list is unchanged); applying it twice preserves
membership exactly, and returns the selection unchanged precisely in the
case that `d` was not a member — when `d` was a member, `d` ends up moved
to the end, so toggling is not an involution on the order. -/
theorem toggleDocSelection_amended (d : String) (s : List String)
    (_hnd : s.Nodup) :
    (d ∈ s → toggleDocSelection d s = s.filter (fun x => x ≠ d))
    ∧ (d ∉ s → toggleDocSelection d s = s ++ [d])
    ∧ (toggleDocSelection d s).filter (fun x => x ≠ d)
        = s.filter (fun x => x ≠ d)
    ∧ (∀ x, x ∈ toggleDocSelection d (toggleDocSelection d s) ↔ x ∈ s)
    ∧ (d ∉ s → toggleDocSelection d (toggleDocSelection d s) = s)
    ∧ (d ∈ s → toggleDocSelection d (toggleDocSelection d s)
        = s.filter (fun x => x ≠ d) ++ [d]) := by
  by_cases hd : d ∈ s
  · have h1 : toggleDocSelection d s = s.filter (fun x => x ≠ d) := by
      simp [toggleDocSelection, hd]
    have hnotmem : d ∉ s.filter (fun x => x ≠ d) := by
      simp [List.mem_filter]
    have h2 : toggleDocSelection d (toggleDocSelection d s)
        = s.filter (fun x => x ≠ d) ++ [d] := by
      rw [h1]; simp [toggleDocSelection, hnotmem]
    refine ⟨fun _ => h1, fun h => absurd hd h, ?_, ?_, fun h => absurd hd h, fun _ => h2⟩
    · rw [h1, List.filter_filter]
      simp
    · intro x
      rw [h2]
      simp only [List.mem_append, List.mem_filter, List.mem_singleton,
        decide_eq_true_eq]
      constructor
      · rintro (⟨hx, _⟩ | hx)
        · exact hx
        · exact hx ▸ hd
      · intro hx
        by_cases hxd : x = d
        · exact Or.inr hxd
        · exact Or.inl ⟨hx, hxd⟩
  · have h1 : toggleDocSelection d s = s ++ [d] := by
      simp [toggleDocSelection, hd]
    have hmem : d ∈ s ++ [d] := by simp
    have hfilter : (s ++ [d]).filter (fun x => x ≠ d) = s.filter (fun x => x ≠ d) := by
      simp [List.filter_append]
    have hself : s.filter (fun x => x ≠ d) = s :=
      List.filter_eq_self.mpr (fun x hx => by
        simp only [ne_eq, decide_eq_true_eq]
        exact fun hxd => hd (hxd ▸ hx))
    have h2 : toggleDocSelection d (toggleDocSelection d s) = s := by
      rw [h1]
      simp only [toggleDocSelection, hmem, if_true, hfilter, hself]
    refine ⟨fun h => absurd h hd, fun _ => h1, ?_, ?_, fun _ => h2, fun h => absurd h hd⟩
    · rw [h1, hfilter]
    · intro x; rw [h2]

/-- Witness for C10 as amended, at a member id, a non-member id and a
concrete duplicate-free selection. -/
theorem toggleDocSelection_amended_witness :
    toggleDocSelection "d1" ["d1", "d2"] = ["d2"]
    ∧ toggleDocSelection "d3" ["d1", "d2"] = ["d1", "d2", "d3"]
    ∧ toggleDocSelection "d3" (toggleDocSelection "d3" ["d1", "d2"]) = ["d1", "d2"] := by
  have h1 := (toggleDocSelection_amended "d1" ["d1", "d2"] (by decide)).1 (by decide)
  have h3 := toggleDocSelection_amended "d3" ["d1", "d2"] (by decide)
  have h2 := h3.2.1 (by decide)
  have h4 := h3.2.2.2.2.1 (by decide)
  refine ⟨?_, ?_, h4⟩
  · rw [h1]; decide
  · rw [h2]; rfl

/-- Helper for C3: filtering out the entry whose id occurs exactly once
(ids are distinct and the id is present) shortens the list by exactly
one. -/
theorem length_filter_ne_id (docs : List Document) (id : String)
    (hmem : id ∈ docs.map Document.id)
    (hnodup : (docs.map Document.id).Nodup) :
    (docs.filter (fun doc => doc.id ≠ id)).length + 1 = docs.length := by
  induction docs with
  | nil => simp at hmem
  | cons d rest ih =>
      simp only [List.map_cons, List.mem_cons, List.nodup_cons] at hmem hnodup
      by_cases hdi : d.id = id
      · have hrest : ∀ x ∈ rest, x.id ≠ id := by
          intro x hx hxid
          exact hnodup.1 (hdi ▸ hxid ▸ List.mem_map_of_mem Document.id hx)
        have hkeep : rest.filter (fun doc => decide (doc.id ≠ id)) = rest :=
          List.filter_eq_self.mpr (fun x hx => by simp [hrest x hx])
        have hdrop : (decide (d.id ≠ id)) = false := by simp [hdi]
        rw [List.filter_cons, hdrop, if_neg Bool.false_ne_true, hkeep]
        simp
      · have hmem2 : id ∈ rest.map Document.id := by
          rcases hmem with h | h
          · exact absurd h.symm hdi
          · exact h
        have hrec := ih hmem2 hnodup.2
        have htake : (decide (d.id ≠ id)) = true := by simp [hdi]
        rw [List.filter_cons, htake]
        simp only [if_true, List.length_cons]
        omega

/-- Claim C3: for a document id present in a list with distinct ids, a
confirmed delete whose server call succeeds removes exactly the entry with
that id — the list shrinks by one, membership of every other entry is
preserved, and the surviving entries keep their order (the result is a
sublist); a confirmed delete whose server call fails leaves the list
exactly unchanged. -/
theorem handleDelete_spec (docs : List Document) (id : String)
    (hmem : id ∈ docs.map Document.id)
    (hnodup : (docs.map Document.id).Nodup) :
    (handleDelete true id (Except.ok ()) docs).length + 1 = docs.length
    ∧ (∀ d, d ∈ handleDelete true id (Except.ok ()) docs ↔ d ∈ docs ∧ d.id ≠ id)
    ∧ List.Sublist (handleDelete true id (Except.ok ()) docs) docs
    ∧ (∀ e, handleDelete true id (Except.error e) docs = docs) := by
  refine ⟨?_, ?_, ?_, fun e => rfl⟩
  · simpa [handleDelete] using length_filter_ne_id docs id hmem hnodup
  · intro d
    simp [handleDelete, List.mem_filter]
  · simp only [handleDelete, if_true]
    exact List.filter_sublist docs

/-- Witness for C3 at a concrete two-document list. -/
theorem handleDelete_spec_witness :
    (handleDelete true "d1" (Except.ok ()) sampleDocs).length + 1 = sampleDocs.length
    ∧ (∀ d, d ∈ handleDelete true "d1" (Except.ok ()) sampleDocs
        ↔ d ∈ sampleDocs ∧ d.id ≠ "d1")
    ∧ List.Sublist (handleDelete true "d1" (Except.ok ()) sampleDocs) sampleDocs
    ∧ (∀ e, handleDelete true "d1" (Except.error e) sampleDocs = sampleDocs) :=
  handleDelete_spec sampleDocs "d1" (by decide) (by decide)

/-- Counterexample to claim C5: the divergent wrapper variant embedded in
the `Chat.tsx` blob (its `unwrap`, lines 365–368) has no catch block, so a
failed call through it hands the raw transport error object to the caller
unchanged instead of a normalized error (whose message here would have been
`Network Error`). -/
theorem unwrapChatVariant_propagates_raw :
    unwrapChatVariant
        (Except.error sampleAxiosError : Except AxiosError (AxiosResponse Nat))
      = Except.error sampleAxiosError
    ∧ errMessage sampleAxiosError = "Network Error" := by
  exact ⟨rfl, by decide⟩

/-- Helper for C5: peeling one entry off the truthiness chain — the
JavaScript `||` of an optional head against the rest of the chain. -/
theorem jsOr_cons (a : Option String) (l : List (Option String)) (dflt : String) :
    jsOr a ((firstTruthy l).getD dflt) = (firstTruthy (a :: l)).getD dflt := by
  cases a with
  | none => simp [jsOr, firstTruthy]
  | some s =>
      by_cases hs : s = "" <;> simp [jsOr, firstTruthy, hs]

/-- Claim C5 as amended: for the canonical wrapper
(`Frontend/services/api.ts`), every success returns the decoded payload and
every failure is normalized to a single error whose message is the first
non-empty among the `detail` and `message` fields of the response body and
the transport message, with `Request failed` as the generic fallback —
`errMessage`, translated from the code, coincides with
`specNormalizedMessage`, written from the spec.  (The divergent variant
shipped alongside `Chat.tsx` violates the claim, see the
counterexample.) -/
theorem unwrap_normalizes (T : Type) (res : AxiosResponse T) (e : AxiosError) :
    unwrap (Except.ok res) = Except.ok res.data
    ∧ unwrap (Except.error e : Except AxiosError (AxiosResponse T))
        = Except.error (specNormalizedMessage e)
    ∧ errMessage e = specNormalizedMessage e := by
  have hmsg : errMessage e = specNormalizedMessage e := by
    unfold errMessage specNormalizedMessage
    rw [← jsOr_cons, ← jsOr_cons, ← jsOr_cons]
    rfl
  exact ⟨rfl, by simp [unwrap, hmsg], hmsg⟩

/-- Claim C6: session-store initialization starts loading, ends not
loading in every case, and — with no stored token — goes straight to
anonymous without calling the identity endpoint; with a stored (truthy)
token it calls the endpoint, becoming authenticated with the returned user
on success and, on any failure, removing the token and becoming
anonymous. -/
theorem initAuthEffect_spec (t : String) (f : Except String User)
    (me : User) (e : String) :
    initAuthEffect none f
        = { user := none, loading := false, access_token := none, calledMe := false }
    ∧ (t ≠ "" → initAuthEffect (some t) (Except.ok me)
        = { user := some me, loading := false, access_token := some t, calledMe := true })
    ∧ (t ≠ "" → initAuthEffect (some t) (Except.error e)
        = { user := none, loading := false, access_token := none, calledMe := true })
    ∧ (∀ tok g, (initAuthEffect tok g).loading = false) := by
  refine ⟨rfl, fun ht => by simp [initAuthEffect, ht],
          fun ht => by simp [initAuthEffect, ht], ?_⟩
  intro tok g
  cases tok with
  | none => rfl
  | some t2 =>
      by_cases h2 : t2 = ""
      · simp [initAuthEffect, h2]
      · cases g <;> simp [initAuthEffect, h2]

/-- Witness for C6 at a concrete token, success and failure outcomes. -/
theorem initAuthEffect_spec_witness :
    initAuthEffect (some "tok") (Except.ok sampleUser)
        = { user := some sampleUser, loading := false
            access_token := some "tok", calledMe := true }
    ∧ initAuthEffect (some "tok") (Except.error "bad")
        = { user := none, loading := false, access_token := none, calledMe := true } := by
  have h := initAuthEffect_spec "tok" (Except.error "bad") sampleUser "bad"
  exact ⟨h.2.1 (by decide), h.2.2.1 (by decide)⟩

/-- Claim C7: `login(token)` persists the token and then fetches identity
against the storage holding it (the responder reads the freshly stored
token); on success the store holds the fetched user and the token stays
stored; on a failed identity fetch the token is removed from storage, the
user is null, and the error is re-thrown to the caller. -/
theorem login_spec (tok : String) (fetchMe : Option String → Except String User)
    (me : User) (e : String) :
    (fetchMe (some tok) = Except.ok me →
        login tok fetchMe
          = { user := some me, access_token := some tok, thrown := none })
    ∧ (fetchMe (some tok) = Except.error e →
        login tok fetchMe
          = { user := none, access_token := none, thrown := some e }) := by
  constructor <;> intro h <;> simp [login, h]

/-- Witness for C7: a responder that authenticates exactly the stored token
`tok` (so it succeeds only because the token was persisted before the
fetch), and an always-failing responder. -/
theorem login_spec_witness :
    login "tok" okResponder
        = { user := some sampleUser, access_token := some "tok", thrown := none }
    ∧ login "tok" failResponder
        = { user := none, access_token := none, thrown := some "invalid token" } := by
  refine ⟨(login_spec "tok" okResponder sampleUser "x").1 ?_,
          (login_spec "tok" failResponder sampleUser "invalid token").2 ?_⟩
  · simp [okResponder]
  · rfl

/-- Claim C8: when a (truthy) token is in durable storage, both request
interceptors — the canonical one of `Frontend/services/api.ts` and the
divergent variant in the `Chat.tsx` blob — attach an `Authorization` header
equal to `Bearer ` followed by the token; when no token is stored, neither
touches the headers, so a request that carried no `Authorization` header is
sent without one. -/
theorem attachAuthHeader_spec (t : String) (h : Option String) :
    (t ≠ "" → attachAuthHeader (some t) none = some ("Bearer " ++ t)
        ∧ attachAuthHeaderChatVariant (some t) none = some ("Bearer " ++ t))
    ∧ attachAuthHeader none h = h
    ∧ attachAuthHeaderChatVariant none h = h := by
  refine ⟨fun ht => ⟨?_, ?_⟩, rfl, rfl⟩ <;>
    simp [attachAuthHeader, attachAuthHeaderChatVariant, ht]

/-- Witness for C8 at a concrete token. -/
theorem attachAuthHeader_spec_witness :
    attachAuthHeader (some "tok") none = some ("Bearer " ++ "tok")
    ∧ attachAuthHeaderChatVariant (some "tok") none = some ("Bearer " ++ "tok") :=
  (attachAuthHeader_spec "tok" none).1 (by decide)

end RagPipeline
